import Mathlib

/-!
Verification of the resilient batch data pipeline of ytdt-api.

Shallow embedding of:
* `src/utils/csv.py` — `ResumableDictWriter` (crash-resistant CSV writing with a
  per-row checkpoint file) and `save_to_csv`;
* `src/models/pipeline.py` — `DataPipeline` (dual-queue batching layer);
* `src/utils/helpers.py` — the module-level names it binds (for the
  import-resolution claim about `rename_file_with_extension`).

Records (Python dicts) are modelled as association lists from field name to
string value; the output file is modelled as the list of its lines, each line
the list of its cells; the checkpoint file is `Option Nat` (`none` = absent).
File sizes (Python `file.tell()` after a flush) are modelled by an explicit
byte-count of the encoded lines (cell bytes, one separator per cell, newline).
-/

namespace Ytdt

/-- A record: a Python dict with string keys, as an association list. -/
abbrev Row := List (String × String)

/-- The cells of one CSV line, already in column order. -/
abbrev Line := List String

/-- Python `\x7bf: row[f] for f in self.fieldnames\x7d` inside
`ResumableDictWriter.write_rows`: project a record onto the fixed column
order; `none` models the `KeyError` raised when a field is missing. -/
def projectRow : List String → Row → Option Line
  | [], _ => some []
  | f :: fs, row =>
    match row.lookup f, projectRow fs row with
    | some v, some vs => some (v :: vs)
    | _, _ => none

/-- Project a whole batch; `none` as soon as one record misses a field. -/
def projectRows (fns : List String) : List Row → Option (List Line)
  | [] => some []
  | r :: rs =>
    match projectRow fns r, projectRows fns rs with
    | some c, some cs => some (c :: cs)
    | _, _ => none

/-- Byte length of one encoded CSV line: cell bytes plus one separator or
terminator per cell, plus one more terminator byte (so even a line with no
cells occupies at least one byte on disk). -/
def encodeRowLen (cells : Line) : Nat :=
  (cells.map String.length).sum + cells.length + 1

/-- Size in bytes of the output file, i.e. what `file.tell()` returns after a
flush at end of an append-only file. -/
def fileSize (lines : List Line) : Nat :=
  (lines.map encodeRowLen).sum

/-- All keys of a batch of records, in order of appearance. -/
def keysOf : List Row → List String
  | [] => []
  | r :: rs => r.map Prod.fst ++ keysOf rs

/-- Keep the first occurrence of every key. -/
def dedupFirst (seen : List String) : List String → List String
  | [] => []
  | k :: ks =>
    if seen.contains k then dedupFirst seen ks
    else k :: dedupFirst (k :: seen) ks

/-- Python `set([e for d in rows_to_write for e in set(d)])` in `save_to_csv`:
the union of the keys observed in a batch (a concrete enumeration order is
fixed here; Python's set order is unspecified). -/
def headerOf (rows : List Row) : List String :=
  dedupFirst [] (keysOf rows)

/-- `WriteStats` of `src/utils/csv.py`. -/
structure WriteStats where
  items_written : Nat
  bytes_written : Nat
  start_position : Nat
deriving DecidableEq

/-- The mutable state of an open `ResumableDictWriter` together with the two
files it touches: `lastPosition` is `self.last_position`, `file` the lines of
the opened output file, `checkpoint` the content of the checkpoint file
(`none` = the checkpoint file does not exist). -/
structure WState where
  lastPosition : Nat
  file : List Line
  checkpoint : Option Nat
deriving DecidableEq

/-- The row-writing loop of `ResumableDictWriter.write_rows`: for each pending
record, write its projection, flush, advance `last_position`, rewrite the
checkpoint file; on a missing field, save the checkpoint and raise (`false`). -/
def writeLoop (fns : List String) : List Row → WState → WState × Bool
  | [], s => (s, true)
  | row :: rest, s =>
    match projectRow fns row with
    | none => ({ s with checkpoint := some s.lastPosition }, false)
    | some cells =>
      writeLoop fns rest
        { lastPosition := s.lastPosition + 1,
          file := s.file ++ [cells],
          checkpoint := some (s.lastPosition + 1) }

/-- Body of `ResumableDictWriter.write_rows` after the starting position has
been fixed: write `rows[pos0:]`; on success return the statistics
(`items_written = last_position - start_position`,
`bytes_written = final_file_pos - initial_file_pos`), on failure (`none`)
the exception propagates with the state as the loop left it. -/
def writeRowsAt (fns : List String) (s : WState) (pos0 : Nat) (rows : List Row) :
    WState × Option WriteStats :=
  match writeLoop fns (rows.drop pos0)
      { lastPosition := pos0, file := s.file, checkpoint := s.checkpoint } with
  | (s1, true) =>
    (s1, some { items_written := s1.lastPosition - pos0,
                bytes_written := fileSize s1.file - fileSize s.file,
                start_position := pos0 })
  | (s1, false) => (s1, none)

/-- `ResumableDictWriter.write_rows`: `self.last_position = start_from` when
one is supplied, else resume at the loaded position, then run the body. -/
def write_rows (fns : List String) (s : WState) (rows : List Row)
    (start_from : Option Nat) : WState × Option WriteStats :=
  writeRowsAt fns s (start_from.getD s.lastPosition) rows

/-- One output path on disk: the output file (`none` = absent) and its
checkpoint file (`none` = absent). -/
structure FS where
  out : Option (List Line)
  cp : Option Nat
deriving DecidableEq

/-- `utils.helpers.file_exists`: the file exists and has positive size. -/
def file_exists (fs : FS) : Bool :=
  match fs.out with
  | some lines => decide (0 < fileSize lines)
  | none => false

/-- `ResumableDictWriter.__init__` + `__enter__`: load `last_position` from the
checkpoint file (absent or malformed = 0); open in append mode when the
position is positive or the file already has content, else truncate and write
the header line. `open(path, 'a')` on an absent path creates an empty file. -/
def wEnter (fs : FS) (fns : List String) : WState :=
  let lastPos := fs.cp.getD 0
  let append := decide (0 < lastPos) || file_exists fs
  { lastPosition := lastPos,
    file := if append then fs.out.getD [] else [fns],
    checkpoint := fs.cp }

/-- `ResumableDictWriter.__exit__`: the checkpoint file after scope exit —
deleted when no exception occurred, rewritten with `last_position` when one
did. -/
def wExit (s : WState) (exc : Bool) : Option Nat :=
  if exc then some s.lastPosition else none

/-- The `with ResumableDictWriter(...) as writer: writer.write_rows(...)`
scope inside `save_to_csv`: enter, write, exit (clean exit deletes the
checkpoint file, exceptional exit persists it and the exception escapes). -/
def runWriterScope (fns : List String) (fs : FS) (rows : List Row) :
    FS × Option WriteStats :=
  match write_rows fns (wEnter fs fns) rows none with
  | (s1, some stats) => ({ out := some s1.file, cp := wExit s1 false }, some stats)
  | (s1, none) => ({ out := some s1.file, cp := wExit s1 true }, none)

/-- `save_to_csv`: derive the header from the batch when none is supplied
(Python `if not header`, so an empty explicit header is also replaced), run a
`ResumableDictWriter` scope over `write_rows`, and — on any failure — log and
return `None` (the second component `none`) instead of re-raising. -/
def save_to_csv (rows : List Row) (fs : FS) (header : Option (List String)) :
    FS × Option WriteStats :=
  runWriterScope
    (match header with
     | none => headerOf rows
     | some h => if h.isEmpty then headerOf rows else h)
    fs rows

/-- Per-queue counters of `DataPipeline.stats` (a `Counter`). -/
structure QStats where
  queued : Nat
  saved : Nat
  bytes : Nat
deriving DecidableEq

/-- `DataPipeline` in-memory state: the two queues, the size threshold, the
dry-run flag and the two stat counters. (Timestamps and the display name only
feed the final log line and are not modelled.) -/
structure Pipeline where
  data_queue : List Row
  errors_queue : List Row
  data_queue_limit : Nat
  dry_run : Bool
  dataStats : QStats
  errStats : QStats
deriving DecidableEq

/-- The two output paths a pipeline writes to: the data file at
`csv_output_path` and the error file at the path derived from it. -/
structure World where
  dataFS : FS
  errFS : FS
deriving DecidableEq

/-- Result of one `DataPipeline.enqueue` call: the updated pipeline and disk
state, whether the flush branch ran, and whether an exception escaped the
call (Python re-raises after logging). -/
structure EnqueueResult where
  p : Pipeline
  w : World
  flushed : Bool
  raised : Bool
deriving DecidableEq

/-- Result of `DataPipeline.__aexit__`. -/
structure ExitResult where
  p : Pipeline
  w : World
  raised : Bool
deriving DecidableEq

/-- `DataPipeline.__aenter__`: unless in dry-run mode, delete stale output.
The Python loop runs over both paths but unlinks `self.csv_output_path` both
times, so only the data file is removed; neither checkpoint file is touched. -/
def aenter (p : Pipeline) (w : World) : World :=
  if p.dry_run then w
  else { w with dataFS := { out := none, cp := w.dataFS.cp } }

/-- `DataPipeline.enqueue(item, is_error)`: append to the selected queue and
bump its `queued` counter; then, when `len(self.data_queue)` (always the data
queue) has reached the threshold and the pipeline is not in dry-run mode,
flush the *appended* queue through `save_to_csv`, add the returned statistics
to that queue's counters and clear it. When `save_to_csv` swallowed a write
failure and returned `None`, the attribute access on `None` raises before the
counters are updated or the queue is cleared. -/
def enqueue (p : Pipeline) (w : World) (item : Row) (is_error : Bool) :
    EnqueueResult :=
  let p1 :=
    if is_error then
      { p with errors_queue := p.errors_queue ++ [item],
               errStats := { p.errStats with queued := p.errStats.queued + 1 } }
    else
      { p with data_queue := p.data_queue ++ [item],
               dataStats := { p.dataStats with queued := p.dataStats.queued + 1 } }
  if p1.data_queue_limit ≤ p1.data_queue.length ∧ p1.dry_run = false then
    let queue := if is_error then p1.errors_queue else p1.data_queue
    let fs := if is_error then w.errFS else w.dataFS
    let r := save_to_csv queue fs none
    let w1 := if is_error then { w with errFS := r.1 } else { w with dataFS := r.1 }
    match r.2 with
    | none => ⟨p1, w1, true, true⟩
    | some st =>
      let p2 :=
        if is_error then
          { p1 with errors_queue := [],
                    errStats := { p1.errStats with
                      saved := p1.errStats.saved + st.items_written,
                      bytes := p1.errStats.bytes + st.bytes_written } }
        else
          { p1 with data_queue := [],
                    dataStats := { p1.dataStats with
                      saved := p1.dataStats.saved + st.items_written,
                      bytes := p1.dataStats.bytes + st.bytes_written } }
      ⟨p2, w1, true, false⟩
  else ⟨p1, w, false, false⟩

/-- `DataPipeline.__aexit__`: only when the *data* queue is non-empty, flush
the data queue and then the error queue through `save_to_csv`, adding each
result to the matching counters; a `None` result raises at the attribute
access and aborts the remaining flushes. The exception arguments are ignored,
so the same path runs on normal and exceptional scope exit. -/
def aexit (p : Pipeline) (w : World) : ExitResult :=
  if 0 < p.data_queue.length then
    let rd := save_to_csv p.data_queue w.dataFS none
    let w1 := { w with dataFS := rd.1 }
    match rd.2 with
    | none => ⟨p, w1, true⟩
    | some dst =>
      let p1 := { p with dataStats := { p.dataStats with
                    saved := p.dataStats.saved + dst.items_written,
                    bytes := p.dataStats.bytes + dst.bytes_written } }
      let re := save_to_csv p.errors_queue w1.errFS none
      let w2 := { w1 with errFS := re.1 }
      match re.2 with
      | none => ⟨p1, w2, true⟩
      | some est =>
        ⟨{ p1 with errStats := { p1.errStats with
             saved := p1.errStats.saved + est.items_written,
             bytes := p1.errStats.bytes + est.bytes_written } }, w2, false⟩
  else ⟨p, w, false⟩

/-- Two successive pipeline flushes against the same output path, as the
pipeline performs them (no explicit header). -/
def flushTwice (b1 b2 : List Row) (fs : FS) : FS :=
  (save_to_csv b2 (save_to_csv b1 fs none).1 none).1

/-- Does every line of a file have as many cells as the header line? False
exactly when some later flush changed or widened the column layout. -/
def uniformWidth : List Line → Bool
  | [] => true
  | h :: rest => rest.all (fun r => r.length == h.length)

/-- Names bound at module level in `src/utils/helpers.py`: its imports
(`os`, `csv`, `pathlib`, `bidict`) and its eight definitions. -/
def utilsHelpersNames : List String :=
  ["os", "csv", "pathlib", "bidict",
   "file_exists", "remove_file", "parse_locale", "bidirectional_lookup",
   "map_language", "load_video_ids_from_csv", "split_kwargs", "safe_dict"]

/-- The names `src/models/pipeline.py` imports from `utils.helpers`
(lines 5 and 9). -/
def pipelineHelperImports : List String :=
  ["remove_file", "rename_file_with_extension"]

/-- Python import semantics for `models/pipeline.py`: the module loads only
if every name in its `from utils.helpers import ...` statements is bound in
`utils.helpers`; otherwise the import raises `ImportError`. -/
def importPipelineOk : Bool :=
  pipelineHelperImports.all (fun n => utilsHelpersNames.contains n)

/-- Whether `DataPipeline(csv_output_path=...)` can be evaluated without
raising: the module import must have succeeded, and with a non-None output
path `__init__` additionally calls `rename_file_with_extension`, which must
then be bound in `utils.helpers`. -/
def constructPipelineOk (has_output_path : Bool) : Bool :=
  importPipelineOk &&
    (!has_output_path || utilsHelpersNames.contains "rename_file_with_extension")

lemma fileSize_cons_pos (l : Line) (ls : List Line) : 0 < fileSize (l :: ls) := by
  have h1 : 0 < encodeRowLen l := Nat.succ_pos _
  simpa [fileSize] using Nat.lt_of_lt_of_le h1 (Nat.le_add_right _ _)

lemma writeLoop_append (fns : List String) :
    ∀ (good : List Row) (s : WState) (cells : List Line),
      projectRows fns good = some cells →
      ∀ b : List Row, ∃ cp : Option Nat,
        writeLoop fns (good ++ b) s =
          writeLoop fns b ⟨s.lastPosition + good.length, s.file ++ cells, cp⟩ := by
  intro good
  induction good with
  | nil =>
    intro s cells h b
    refine ⟨s.checkpoint, ?_⟩
    simp only [projectRows, Option.some.injEq] at h
    subst h
    simp
  | cons r rs ih =>
    intro s cells h b
    cases hc : projectRow fns r with
    | none => simp [projectRows, hc] at h
    | some c =>
      cases hcs : projectRows fns rs with
      | none => simp [projectRows, hc, hcs] at h
      | some cs =>
        simp only [projectRows, hc, hcs, Option.some.injEq] at h
        subst h
        obtain ⟨cp, hcp⟩ :=
          ih ⟨s.lastPosition + 1, s.file ++ [c], some (s.lastPosition + 1)⟩ cs hcs b
        refine ⟨cp, ?_⟩
        have hstep : writeLoop fns ((r :: rs) ++ b) s =
            writeLoop fns (rs ++ b)
              ⟨s.lastPosition + 1, s.file ++ [c], some (s.lastPosition + 1)⟩ := by
          simp [List.cons_append, writeLoop, hc]
        rw [hstep, hcp]
        congr 1
        simp only [WState.mk.injEq, List.length_cons]
        refine ⟨by omega, by simp, by trivial⟩

lemma writeLoop_ok (fns : List String) (good : List Row) (s : WState)
    (cells : List Line) (h : projectRows fns good = some cells) :
    ∃ cp : Option Nat,
      writeLoop fns good s =
        (⟨s.lastPosition + good.length, s.file ++ cells, cp⟩, true) := by
  obtain ⟨cp, hcp⟩ := writeLoop_append fns good s cells h []
  refine ⟨cp, ?_⟩
  rw [List.append_nil] at hcp
  exact hcp.trans rfl

/-- Claim C1: for a `ResumableDictWriter` whose loaded checkpoint position is
`k` and a batch of `m` rows with `k ≤ m`, a successful `write_rows` call
appends exactly the projections of rows `k..m-1`, in order, each once, and
returns a `WriteStats` whose `items_written` is `m - k` and whose
`bytes_written` is the growth of the output file during the call. -/
theorem write_rows_resumes_exactly (fns : List String) (rows : List Row)
    (s : WState) (k : Nat) (cells : List Line)
    (hk : s.lastPosition = k) (hkm : k ≤ rows.length)
    (hc : projectRows fns (rows.drop k) = some cells) :
    (write_rows fns s rows none).1.file = s.file ++ cells ∧
    (write_rows fns s rows none).1.lastPosition = rows.length ∧
    (write_rows fns s rows none).2 =
      some ⟨rows.length - k, fileSize (s.file ++ cells) - fileSize s.file, k⟩ := by
  have hgd : write_rows fns s rows none = writeRowsAt fns s k rows := by
    unfold write_rows
    rw [Option.getD_none, hk]
  obtain ⟨cp, hcp⟩ := writeLoop_ok fns (rows.drop k) ⟨k, s.file, s.checkpoint⟩ cells hc
  have hdl : (rows.drop k).length = rows.length - k := by simp
  rw [hgd]
  unfold writeRowsAt
  rw [hcp]
  refine ⟨rfl, ?_, ?_⟩
  · simp only [hdl]
    omega
  · simp only [Option.some.injEq, WriteStats.mk.injEq, hdl]
    exact ⟨by omega, trivial, trivial⟩

/-- Witness for C1: resuming at position 1 in a 3-row batch writes rows 1 and
2 only, with `items_written = 2` and `bytes_written` the file growth. -/
theorem write_rows_resumes_exactly_witness :
    (⟨1, [["a"], ["x"]], some 1⟩ : WState).lastPosition = 1 ∧
    1 ≤ ([[("a", "x")], [("a", "y")], [("a", "z")]] : List Row).length ∧
    (write_rows ["a"] ⟨1, [["a"], ["x"]], some 1⟩
        [[("a", "x")], [("a", "y")], [("a", "z")]] none).1.file =
      [["a"], ["x"]] ++ [["y"], ["z"]] ∧
    (write_rows ["a"] ⟨1, [["a"], ["x"]], some 1⟩
        [[("a", "x")], [("a", "y")], [("a", "z")]] none).2 =
      some ⟨2, fileSize ([["a"], ["x"]] ++ [["y"], ["z"]]) - fileSize [["a"], ["x"]], 1⟩ := by
  have h := write_rows_resumes_exactly ["a"]
    [[("a", "x")], [("a", "y")], [("a", "z")]]
    ⟨1, [["a"], ["x"]], some 1⟩ 1 [["y"], ["z"]] rfl (by decide) (by decide)
  exact ⟨rfl, by decide, h.1, h.2.2⟩

/-- Claim C7: the checkpoint file is rewritten after every single row (one
successful row write advances the state to a checkpoint recording the new
position, whatever it held before); on scope exit without exception the
checkpoint file does not exist afterwards; on scope exit with an exception it
exists and records `last_position`, the count of rows durably written. -/
theorem checkpoint_per_row_and_on_exit (fns : List String) (row : Row)
    (rest : List Row) (s : WState) (c : Line)
    (h : projectRow fns row = some c) :
    writeLoop fns (row :: rest) s =
      writeLoop fns rest
        ⟨s.lastPosition + 1, s.file ++ [c], some (s.lastPosition + 1)⟩ ∧
    wExit s false = none ∧
    wExit s true = some s.lastPosition := by
  refine ⟨?_, rfl, rfl⟩
  simp [writeLoop, h]

/-- Witness for C7 at a one-field record. -/
theorem checkpoint_per_row_and_on_exit_witness :
    projectRow ["a"] [("a", "x")] = some ["x"] ∧
    (writeLoop ["a"] [[("a", "x")]] ⟨0, [["a"]], none⟩ =
       writeLoop ["a"] [] ⟨0 + 1, [["a"]] ++ [["x"]], some (0 + 1)⟩ ∧
     wExit ⟨0, [["a"]], none⟩ false = none ∧
     wExit ⟨0, [["a"]], none⟩ true = some 0) := by
  exact ⟨rfl,
    checkpoint_per_row_and_on_exit ["a"] [("a", "x")] [] ⟨0, [["a"]], none⟩ ["x"] rfl⟩

/-- Claim C8: a record lacking a column of the fixed header makes the writer
raise at flush time — the loop stops at the offending row — while every row
written before it is already in the output file and recorded in the
checkpoint file; `enqueue` itself performs no column validation: below the
flush threshold it raises nothing and touches no file. -/
theorem missing_column_raises_at_flush (fns : List String) (good : List Row)
    (bad : Row) (rest : List Row) (cells : List Line) (s : WState)
    (p : Pipeline) (w : World) (item : Row)
    (hg : projectRows fns good = some cells) (hb : projectRow fns bad = none)
    (hq : p.data_queue.length + 1 < p.data_queue_limit) :
    writeLoop fns (good ++ bad :: rest) s =
      (⟨s.lastPosition + good.length, s.file ++ cells,
        some (s.lastPosition + good.length)⟩, false) ∧
    (enqueue p w item false).raised = false ∧
    (enqueue p w item true).raised = false ∧
    (enqueue p w item false).w = w ∧
    (enqueue p w item true).w = w := by
  have hnof : ¬ (p.data_queue_limit ≤ p.data_queue.length + 1 ∧
      p.dry_run = false) := by
    intro hcl
    omega
  have hnoe : ¬ (p.data_queue_limit ≤ p.data_queue.length ∧
      p.dry_run = false) := by
    intro hcl
    omega
  refine ⟨?_, ?_, ?_, ?_, ?_⟩
  · obtain ⟨cp, hcp⟩ := writeLoop_append fns good s cells hg (bad :: rest)
    rw [hcp]
    simp [writeLoop, hb]
  · simp [enqueue, hnof]
  · simp [enqueue, hnoe]
  · simp [enqueue, hnof]
  · simp [enqueue, hnoe]

/-- Witness for C8: batch with one good row then a row lacking column `a`;
an enqueue on a pipeline whose threshold is far away. -/
theorem missing_column_raises_at_flush_witness :
    projectRows ["a"] [[("a", "1")]] = some [["1"]] ∧
    projectRow ["a"] [] = none ∧
    (⟨[], [], 5, false, ⟨0, 0, 0⟩, ⟨0, 0, 0⟩⟩ : Pipeline).data_queue.length + 1 < 5 ∧
    (writeLoop ["a"] ([[("a", "1")]] ++ [] :: []) ⟨0, [["a"]], none⟩ =
       (⟨0 + 1, [["a"]] ++ [["1"]], some (0 + 1)⟩, false) ∧
     (enqueue ⟨[], [], 5, false, ⟨0, 0, 0⟩, ⟨0, 0, 0⟩⟩
        ⟨⟨none, none⟩, ⟨none, none⟩⟩ [("b", "2")] false).raised = false ∧
     (enqueue ⟨[], [], 5, false, ⟨0, 0, 0⟩, ⟨0, 0, 0⟩⟩
        ⟨⟨none, none⟩, ⟨none, none⟩⟩ [("b", "2")] true).raised = false ∧
     (enqueue ⟨[], [], 5, false, ⟨0, 0, 0⟩, ⟨0, 0, 0⟩⟩
        ⟨⟨none, none⟩, ⟨none, none⟩⟩ [("b", "2")] false).w =
       ⟨⟨none, none⟩, ⟨none, none⟩⟩ ∧
     (enqueue ⟨[], [], 5, false, ⟨0, 0, 0⟩, ⟨0, 0, 0⟩⟩
        ⟨⟨none, none⟩, ⟨none, none⟩⟩ [("b", "2")] true).w =
       ⟨⟨none, none⟩, ⟨none, none⟩⟩) := by
  refine ⟨rfl, rfl, by decide, ?_⟩
  have h := missing_column_raises_at_flush ["a"] [[("a", "1")]] [] []
    [["1"]] ⟨0, [["a"]], none⟩ ⟨[], [], 5, false, ⟨0, 0, 0⟩, ⟨0, 0, 0⟩⟩
    ⟨⟨none, none⟩, ⟨none, none⟩⟩ [("b", "2")] rfl rfl (by decide)
  simpa using h

lemma runWriterScope_fresh (fns : List String) (rows : List Row)
    (cells : List Line) (h : projectRows fns rows = some cells) :
    runWriterScope fns ⟨none, none⟩ rows =
      (⟨some ([fns] ++ cells), none⟩,
       some ⟨rows.length, fileSize ([fns] ++ cells) - fileSize [fns], 0⟩) := by
  obtain ⟨cp, hw⟩ := writeLoop_ok fns rows ⟨0, [fns], none⟩ cells h
  have hwr : write_rows fns (wEnter ⟨none, none⟩ fns) rows none =
      writeRowsAt fns ⟨0, [fns], none⟩ 0 rows := rfl
  unfold runWriterScope
  rw [hwr]
  unfold writeRowsAt
  simp only [List.drop_zero]
  rw [hw]
  simp [wExit]

lemma runWriterScope_existing (fns : List String) (rows : List Row)
    (cells : List Line) (f : List Line) (hpos : 0 < fileSize f)
    (h : projectRows fns rows = some cells) :
    runWriterScope fns ⟨some f, none⟩ rows =
      (⟨some (f ++ cells), none⟩,
       some ⟨rows.length, fileSize (f ++ cells) - fileSize f, 0⟩) := by
  obtain ⟨cp, hw⟩ := writeLoop_ok fns rows ⟨0, f, none⟩ cells h
  have hen : wEnter ⟨some f, none⟩ fns = ⟨0, f, none⟩ := by
    simp [wEnter, file_exists, hpos]
  unfold runWriterScope
  rw [hen]
  have hwr : write_rows fns (⟨0, f, none⟩ : WState) rows none =
      writeRowsAt fns ⟨0, f, none⟩ 0 rows := rfl
  rw [hwr]
  unfold writeRowsAt
  simp only [List.drop_zero]
  rw [hw]
  simp [wExit]

/-- Counterexample to claim C9: pipeline flushes pass no explicit header, so
`save_to_csv` recomputes the column set from each batch. Flushing batch
`[\x7b"a": "1"\x7d]` and then batch `[\x7b"a": "2", "b": "3"\x7d]` to the same
path yields a file whose header has one column but whose last row has two:
the column order is not fixed by the first flushed batch and is widened by a
later flush. -/
theorem second_flush_widens_columns :
    flushTwice [[("a", "1")]] [[("a", "2"), ("b", "3")]] ⟨none, none⟩ =
      ⟨some [["a"], ["1"], ["2", "3"]], none⟩ ∧
    uniformWidth [["a"], ["1"], ["2", "3"]] = false := by
  exact ⟨rfl, rfl⟩

/-- Claim C9 as amended: over a run with two flushes the output file contains
exactly one header row — the first flush truncates and writes the key union
of its own batch, the second appends without a header — but each flush lays
its rows out by its *own* batch's key union (`headerOf`), not by the frozen
first header, and the pipeline never forwards an explicit column list. -/
theorem header_written_once_columns_per_flush (b1 b2 : List Row)
    (c1 c2 : List Line)
    (h1 : projectRows (headerOf b1) b1 = some c1)
    (h2 : projectRows (headerOf b2) b2 = some c2) :
    flushTwice b1 b2 ⟨none, none⟩ =
      ⟨some (headerOf b1 :: (c1 ++ c2)), none⟩ := by
  have hf1 := runWriterScope_fresh (headerOf b1) b1 c1 h1
  have hf2 := runWriterScope_existing (headerOf b2) b2 c2 ([headerOf b1] ++ c1)
    (fileSize_cons_pos _ _) h2
  have hs1 : save_to_csv b1 ⟨none, none⟩ none =
      runWriterScope (headerOf b1) ⟨none, none⟩ b1 := rfl
  have hs2 : save_to_csv b2 (⟨some ([headerOf b1] ++ c1), none⟩ : FS) none =
      runWriterScope (headerOf b2) ⟨some ([headerOf b1] ++ c1), none⟩ b2 := rfl
  unfold flushTwice
  rw [hs1, hf1]
  simp only
  rw [hs2, hf2]
  simp

/-- Witness for the amended C9 at the concrete two batches of the
counterexample. -/
theorem header_written_once_columns_per_flush_witness :
    projectRows (headerOf [[("a", "1")]]) [[("a", "1")]] = some [["1"]] ∧
    projectRows (headerOf [[("a", "2"), ("b", "3")]]) [[("a", "2"), ("b", "3")]] =
      some [["2", "3"]] ∧
    flushTwice [[("a", "1")]] [[("a", "2"), ("b", "3")]] ⟨none, none⟩ =
      ⟨some (headerOf [[("a", "1")]] :: ([["1"]] ++ [["2", "3"]])), none⟩ := by
  exact ⟨rfl, rfl,
    header_written_once_columns_per_flush [[("a", "1")]] [[("a", "2"), ("b", "3")]]
      [["1"]] [["2", "3"]] rfl rfl⟩

/-- Counterexample to claim C5: with threshold 1, enqueuing an error record
into an empty pipeline brings the error queue exactly to the threshold, yet
no flush happens (the error queue keeps its record and no file is touched),
because `enqueue` tests `len(self.data_queue)`, never the error queue. -/
theorem error_queue_at_threshold_not_flushed :
    (enqueue ⟨[], [], 1, false, ⟨0, 0, 0⟩, ⟨0, 0, 0⟩⟩
       ⟨⟨none, none⟩, ⟨none, none⟩⟩ [("id", "x")] true).flushed = false ∧
    (enqueue ⟨[], [], 1, false, ⟨0, 0, 0⟩, ⟨0, 0, 0⟩⟩
       ⟨⟨none, none⟩, ⟨none, none⟩⟩ [("id", "x")] true).p.errors_queue.length = 1 ∧
    (enqueue ⟨[], [], 1, false, ⟨0, 0, 0⟩, ⟨0, 0, 0⟩⟩
       ⟨⟨none, none⟩, ⟨none, none⟩⟩ [("id", "x")] true).w =
      ⟨⟨none, none⟩, ⟨none, none⟩⟩ := by
  exact ⟨rfl, rfl, rfl⟩

/-- Claim C5 as amended: on every `enqueue` (dry-run aside) the flush branch
runs if and only if the *success* (data) queue — after the append, so
including the new record when `is_error` is false — has reached the
threshold, regardless of which queue received the record; the error queue's
own length is never consulted, and the flush only ever touches the file of
the queue that was appended to. -/
theorem flush_gated_by_data_queue_only (p : Pipeline) (w : World) (item : Row) :
    ((enqueue p w item false).flushed =
      (decide (p.data_queue_limit ≤ p.data_queue.length + 1) && !p.dry_run)) ∧
    ((enqueue p w item true).flushed =
      (decide (p.data_queue_limit ≤ p.data_queue.length) && !p.dry_run)) ∧
    (enqueue p w item true).w.dataFS = w.dataFS ∧
    (enqueue p w item false).w.errFS = w.errFS := by
  refine ⟨?_, ?_, ?_, ?_⟩
  · by_cases hl : p.data_queue_limit ≤ p.data_queue.length + 1 <;>
      by_cases hd : p.dry_run
    · simp [enqueue, hl, hd]
    · cases hr : (save_to_csv (p.data_queue ++ [item]) w.dataFS none).2 <;>
        simp [enqueue, hl, hd, hr]
    · simp [enqueue, hl, hd]
    · simp [enqueue, hl, hd]
  · by_cases hl : p.data_queue_limit ≤ p.data_queue.length <;>
      by_cases hd : p.dry_run
    · simp [enqueue, hl, hd]
    · cases hr : (save_to_csv (p.errors_queue ++ [item]) w.errFS none).2 <;>
        simp [enqueue, hl, hd, hr]
    · simp [enqueue, hl, hd]
    · simp [enqueue, hl, hd]
  · by_cases hl : p.data_queue_limit ≤ p.data_queue.length <;>
      by_cases hd : p.dry_run
    · simp [enqueue, hl, hd]
    · cases hr : (save_to_csv (p.errors_queue ++ [item]) w.errFS none).2 <;>
        simp [enqueue, hl, hd, hr]
    · simp [enqueue, hl, hd]
    · simp [enqueue, hl, hd]
  · by_cases hl : p.data_queue_limit ≤ p.data_queue.length + 1 <;>
      by_cases hd : p.dry_run
    · simp [enqueue, hl, hd]
    · cases hr : (save_to_csv (p.data_queue ++ [item]) w.dataFS none).2 <;>
        simp [enqueue, hl, hd, hr]
    · simp [enqueue, hl, hd]
    · simp [enqueue, hl, hd]

/-- Claim C2 evaluated at its failing input: scope exit with an empty success
queue and a non-empty error queue flushes nothing at all — `__aexit__` is
gated on `len(self.data_queue) > 0` alone — so the buffered error record is
silently dropped and neither output file is created. -/
theorem exit_with_only_errors_flushes_nothing :
    aexit ⟨[], [[("id", "x")]], 5, false, ⟨0, 0, 0⟩, ⟨1, 0, 0⟩⟩
        ⟨⟨none, none⟩, ⟨none, none⟩⟩ =
      ⟨⟨[], [[("id", "x")]], 5, false, ⟨0, 0, 0⟩, ⟨1, 0, 0⟩⟩,
       ⟨⟨none, none⟩, ⟨none, none⟩⟩, false⟩ ∧
    ([[("id", "x")]] : List Row) ≠ [] := by
  exact ⟨rfl, by decide⟩

/-- Claim C4 evaluated at its failing input: in dry-run mode `__aenter__` and
`enqueue` indeed perform no disk I/O and still count the record, but
`__aexit__` has no dry-run guard: with one queued record, scope exit runs the
flushes and creates the output path (and the error path) anyway. -/
theorem dry_run_exit_creates_output :
    aenter ⟨[], [], 10, true, ⟨0, 0, 0⟩, ⟨0, 0, 0⟩⟩
        ⟨⟨none, none⟩, ⟨none, none⟩⟩ = ⟨⟨none, none⟩, ⟨none, none⟩⟩ ∧
    (enqueue ⟨[], [], 10, true, ⟨0, 0, 0⟩, ⟨0, 0, 0⟩⟩
        ⟨⟨none, none⟩, ⟨none, none⟩⟩ [("id", "x")] false).w =
      ⟨⟨none, none⟩, ⟨none, none⟩⟩ ∧
    (enqueue ⟨[], [], 10, true, ⟨0, 0, 0⟩, ⟨0, 0, 0⟩⟩
        ⟨⟨none, none⟩, ⟨none, none⟩⟩ [("id", "x")] false).p.dataStats.queued = 1 ∧
    (aexit (enqueue ⟨[], [], 10, true, ⟨0, 0, 0⟩, ⟨0, 0, 0⟩⟩
        ⟨⟨none, none⟩, ⟨none, none⟩⟩ [("id", "x")] false).p
        ⟨⟨none, none⟩, ⟨none, none⟩⟩).w.dataFS.out.isSome = true ∧
    (aexit (enqueue ⟨[], [], 10, true, ⟨0, 0, 0⟩, ⟨0, 0, 0⟩⟩
        ⟨⟨none, none⟩, ⟨none, none⟩⟩ [("id", "x")] false).p
        ⟨⟨none, none⟩, ⟨none, none⟩⟩).w.errFS.out.isSome = true := by
  exact ⟨rfl, rfl, rfl, rfl, rfl⟩

/-- Claim C6 evaluated at its failing input: flushing a batch whose second
record lacks the required column makes the writer raise after durably
writing row 0, and the checkpoint file is left in place recording position 1
(that much of the claim holds) — but `save_to_csv` catches the error, logs
it and returns `None` (second component `none`) instead of re-raising, so
the write error is not propagated; a pipeline flush hitting this then raises
only the secondary attribute error on the `None` result, without clearing
the queue or updating the saved counters. -/
theorem flush_error_swallowed_not_reraised :
    save_to_csv [[("a", "1")], []] ⟨none, none⟩ none =
      (⟨some [["a"], ["1"]], some 1⟩, none) ∧
    (enqueue ⟨[[("a", "1")]], [], 2, false, ⟨1, 0, 0⟩, ⟨0, 0, 0⟩⟩
        ⟨⟨none, none⟩, ⟨none, none⟩⟩ [] false).raised = true ∧
    (enqueue ⟨[[("a", "1")]], [], 2, false, ⟨1, 0, 0⟩, ⟨0, 0, 0⟩⟩
        ⟨⟨none, none⟩, ⟨none, none⟩⟩ [] false).p.data_queue ≠ [] ∧
    (enqueue ⟨[[("a", "1")]], [], 2, false, ⟨1, 0, 0⟩, ⟨0, 0, 0⟩⟩
        ⟨⟨none, none⟩, ⟨none, none⟩⟩ [] false).p.dataStats.saved = 0 ∧
    (enqueue ⟨[[("a", "1")]], [], 2, false, ⟨1, 0, 0⟩, ⟨0, 0, 0⟩⟩
        ⟨⟨none, none⟩, ⟨none, none⟩⟩ [] false).w.dataFS.cp = some 1 := by
  exact ⟨rfl, rfl, by decide, rfl, rfl⟩

/-- Claim C3: `rename_file_with_extension` is not among the names bound in
`utils.helpers`, so the top-level `from utils.helpers import
rename_file_with_extension` in `models/pipeline.py` raises `ImportError` —
merely importing the module fails — and no `DataPipeline` construction with
an output path can succeed (in fact, because the import error precedes the
constructor, construction fails without an output path too, and the sibling
error file can never be produced). -/
theorem pipeline_import_and_construction_fail :
    utilsHelpersNames.contains "rename_file_with_extension" = false ∧
    importPipelineOk = false ∧
    constructPipelineOk true = false ∧
    constructPipelineOk false = false := by
  exact ⟨rfl, rfl, rfl, rfl⟩

end Ytdt
